import Mathlib

/-!
Verification of Project Sentinel (main.py, analysis.py, connectors.py).

Shallow embedding conventions:
* Python floats are modelled as exact rationals (`ℚ`).
* Python exceptions are made explicit: a fallible body returns
  `Except PyErr α`, and a `try/except` wrapper pattern-matches on it.
* External I/O (Kraken, IBKR, NewsAPI, the config file, the clock) is
  modelled by an explicit outcome value passed to the function, covering
  every behaviour the code distinguishes.
-/

namespace Sentinel

/-- Python exception classes distinguished by the code's `except` clauses. -/
inductive PyErr where
  | fileNotFound (msg : String)
  | noSection (section_ : String)
  | noOption (section_ : String) (option_ : String)
  | valueError
  | keyError
  | indexError
  | connectionRefused
  | requestException
  | httpError
  | generic (msg : String)
  deriving DecidableEq, Repr

/-! ### Sentiment labeler (main.py, `get_sentiment_label`) -/

/-- The five labels returned by `get_sentiment_label`.  The code returns
Spanish strings; `SentimentLabel.text` below gives the exact strings. -/
inductive SentimentLabel where
  | NEGATIVE
  | NEUTRAL_NEGATIVE
  | NEUTRAL
  | NEUTRAL_POSITIVE
  | POSITIVE
  deriving DecidableEq, Repr

/-- The exact string the code returns for each label. -/
def SentimentLabel.text : SentimentLabel → String
  | .NEGATIVE => "NEGATIVO"
  | .NEUTRAL_NEGATIVE => "NEUTRAL-NEGATIVO"
  | .NEUTRAL => "NEUTRAL"
  | .NEUTRAL_POSITIVE => "NEUTRAL-POSITIVO"
  | .POSITIVE => "POSITIVO"

/-- `get_sentiment_label` from main.py: the `if/elif/else` chain, verbatim. -/
def get_sentiment_label (score : ℚ) : SentimentLabel :=
  if score > 3/10 then .POSITIVE
  else if score > 1/20 then .NEUTRAL_POSITIVE
  else if score < -(3/10) then .NEGATIVE
  else if score < -(1/20) then .NEUTRAL_NEGATIVE
  else .NEUTRAL

/-- Position of each label in the order
NEGATIVE < NEUTRAL-NEGATIVE < NEUTRAL < NEUTRAL-POSITIVE < POSITIVE. -/
def SentimentLabel.rank : SentimentLabel → ℕ
  | .NEGATIVE => 0
  | .NEUTRAL_NEGATIVE => 1
  | .NEUTRAL => 2
  | .NEUTRAL_POSITIVE => 3
  | .POSITIVE => 4

/-! ### Sentiment aggregator (analysis.py, `analyze_headlines_sentiment`) -/

/-- The four polarity scores returned by the VADER model for one headline. -/
structure PolarityScores where
  neg : ℚ
  neu : ℚ
  pos : ℚ
  compound : ℚ
  deriving DecidableEq, Repr

/-- One entry of the `details` list built in the loop. -/
structure DetailEntry where
  headline : String
  sentiment_scores : PolarityScores
  deriving DecidableEq, Repr

/-- The dictionary returned by `analyze_headlines_sentiment`. -/
structure SentimentResult where
  average_sentiment_compound : ℚ
  details : List DetailEntry
  deriving DecidableEq, Repr

/-- The loop of `analyze_headlines_sentiment`: accumulates the detailed
results and the running total of compound scores, in input order. -/
def sentimentLoop (polarity : String → PolarityScores) :
    List String → List DetailEntry × ℚ
  | [] => ([], 0)
  | h :: rest =>
      let s := polarity h
      let (ds, t) := sentimentLoop polarity rest
      (⟨h, s⟩ :: ds, s.compound + t)

/-- `analyze_headlines_sentiment` from analysis.py.  The external VADER
analyzer (`SentimentIntensityAnalyzer().polarity_scores`) is passed as the
deterministic black-box function `polarity`. -/
def analyze_headlines_sentiment (polarity : String → PolarityScores)
    (headlines : List String) : SentimentResult :=
  if headlines = [] then
    { average_sentiment_compound := 0, details := [] }
  else
    let (detailed_results, total_compound_score) := sentimentLoop polarity headlines
    { average_sentiment_compound := total_compound_score / headlines.length,
      details := detailed_results }

/-! ### Kraken connector (connectors.py, `get_btc_price`) -/

/-- The response dictionary of the Kraken Ticker query.
`c` is `none` when any of the keys `result`, `XXBTZUSD`, `c` is absent
(a `KeyError` on access); an element of `c` is `none` when the string does
not parse as a float (the float conversion raises `ValueError`). -/
structure KrakenResponse where
  error : List String
  c : Option (List (Option ℚ))
  deriving DecidableEq, Repr

/-- Behaviours of the Kraken call the code distinguishes: the query itself
raising (network failure), or returning a response dictionary. -/
inductive KrakenOutcome where
  | raises (msg : String)
  | returns (resp : KrakenResponse)
  deriving DecidableEq, Repr

/-- The `try` body of `get_btc_price`: query, check the provider-reported
`error` field, then extract and parse the first element of the `c` list
under `result` and `XXBTZUSD`. -/
def get_btc_price_body : KrakenOutcome → Except PyErr ℚ
  | .raises msg => .error (.generic msg)
  | .returns resp =>
      if resp.error ≠ [] then .ok 0
      else
        match resp.c with
        | none => .error .keyError
        | some [] => .error .indexError
        | some (none :: _) => .error .valueError
        | some (some price :: _) => .ok price

/-- `get_btc_price` from connectors.py: the `try` body wrapped in the
catch-all clause returning 0.0.  The `Except` result makes exception
propagation explicit: an `.error` value would be a propagated exception. -/
def get_btc_price (o : KrakenOutcome) : Except PyErr ℚ :=
  match get_btc_price_body o with
  | .ok v => .ok v
  | .error _ => .ok 0

/-- Modelled from the spec: the crypto price source returns the fetched
price, and 0.0 on any failure (network, malformed response, or
provider-reported error). -/
def btcPriceSpec : KrakenOutcome → ℚ
  | .raises _ => 0
  | .returns resp =>
      if resp.error ≠ [] then 0
      else
        match resp.c with
        | some (some price :: _) => price
        | _ => 0

/-! ### NewsAPI connector (connectors.py, `get_market_news`) -/

/-- The parsed JSON body of the NewsAPI response.  `invalidJson` models a
JSON parse failure; `articles = none` models a JSON object without an
`articles` key (the code then substitutes the empty list); an article
title of `none` models an article dictionary without a `title` key
(access raises a `KeyError`). -/
inductive NewsBody where
  | invalidJson
  | json (articles : Option (List (Option String)))
  deriving DecidableEq, Repr

/-- Behaviours of the NewsAPI call the code distinguishes: the GET request
raising a `RequestException`, or an HTTP response with a status code and
a body. -/
inductive NewsOutcome where
  | requestRaises
  | response (status : ℕ) (body : NewsBody)
  deriving DecidableEq, Repr

/-- The title-extraction list comprehension: it raises a `KeyError` at the
first article without a title. -/
def extractTitles : List (Option String) → Except PyErr (List String)
  | [] => .ok []
  | none :: _ => .error .keyError
  | some t :: rest =>
      match extractTitles rest with
      | .ok ts => .ok (t :: ts)
      | .error e => .error e

/-- The `try` body of `get_market_news`: GET, the status check (raises an
`HTTPError`, a kind of `RequestException`, for status ≥ 400), JSON
parsing, then title extraction. -/
def get_market_news_body : NewsOutcome → Except PyErr (List String)
  | .requestRaises => .error .requestException
  | .response status body =>
      if 400 ≤ status then .error .httpError
      else
        match body with
        | .invalidJson => .error .valueError
        | .json articles => extractTitles (articles.getD [])

/-- `get_market_news` from connectors.py: the `try` body wrapped in the
three `except` clauses (`RequestException`, `KeyError`, `Exception`), each
returning the empty list. -/
def get_market_news (o : NewsOutcome) : Except PyErr (List String) :=
  match get_market_news_body o with
  | .ok hs => .ok hs
  | .error _ => .ok []

/-- Modelled from the spec: the news source returns the ordered sequence
of titles, and the empty sequence on any HTTP-level, parsing, or
unexpected error. -/
def newsHeadlinesSpec : NewsOutcome → List String
  | .requestRaises => []
  | .response status body =>
      if 400 ≤ status then []
      else
        match body with
        | .invalidJson => []
        | .json articles =>
            match extractTitles (articles.getD []) with
            | .ok ts => ts
            | .error _ => []

/-! ### IBKR connector (connectors.py, `get_spy_name`) -/

/-- Connection lifecycle events of the `IB` object. -/
inductive IBEvent where
  | connected
  | disconnected
  deriving DecidableEq, Repr

/-- The one field of `ContractDetails` the code reads. -/
structure ContractDetails where
  longName : String
  deriving DecidableEq, Repr

/-- Behaviours of the IBKR session the code distinguishes:
`ib.connect` raising `ConnectionRefusedError`, `ib.connect` raising some
other exception (in both cases no connection is established),
`ib.reqContractDetails` raising after a successful connect, or a
successful connect with a returned details list. -/
inductive SpyOutcome where
  | connectRefused
  | connectRaises (msg : String)
  | detailsRaise (msg : String)
  | details (ds : List ContractDetails)
  deriving DecidableEq, Repr

/-- The observable outcome of one `get_spy_name` call: the returned string,
whether the `IB` object is still connected on return, and the connection
events that occurred. -/
structure SpyRun where
  result : String
  finalConnected : Bool
  trace : List IBEvent
  deriving DecidableEq, Repr

/-- The `try` body of `get_spy_name`: connect (recording the connection
state), request contract details, return `"Desconocido"` on an empty list
and the first `longName` otherwise. -/
def spy_try_body : SpyOutcome → Except PyErr String × Bool × List IBEvent
  | .connectRefused => (.error .connectionRefused, false, [])
  | .connectRaises msg => (.error (.generic msg), false, [])
  | .detailsRaise msg => (.error (.generic msg), true, [.connected])
  | .details [] => (.ok "Desconocido", true, [.connected])
  | .details (d :: _) => (.ok d.longName, true, [.connected])

/-- `get_spy_name` from connectors.py: the `try` body, the two `except`
clauses (`ConnectionRefusedError` and `Exception`, both returning
`"Desconocido"`), and the `finally` clause that disconnects whenever the
`IB` object is still connected. -/
def get_spy_name (o : SpyOutcome) : SpyRun :=
  let body := spy_try_body o
  let res : String :=
    match body.1 with
    | .ok s => s
    | .error _ => "Desconocido"
  if body.2.1 then ⟨res, false, body.2.2 ++ [.disconnected]⟩
  else ⟨res, false, body.2.2⟩

/-- Failure of the reference-asset fetch as the spec describes it:
connection refusal, any other exception, or an empty contract-details
result. -/
def spyFetchFails : SpyOutcome → Prop
  | .connectRefused => True
  | .connectRaises _ => True
  | .detailsRaise _ => True
  | .details [] => True
  | .details (_ :: _) => False

instance (o : SpyOutcome) : Decidable (spyFetchFails o) := by
  unfold spyFetchFails
  match o with
  | .connectRefused => exact inferInstanceAs (Decidable True)
  | .connectRaises _ => exact inferInstanceAs (Decidable True)
  | .detailsRaise _ => exact inferInstanceAs (Decidable True)
  | .details [] => exact inferInstanceAs (Decidable True)
  | .details (_ :: _) => exact inferInstanceAs (Decidable False)

/-! ### Report renderer (main.py, `display_report`) -/

/-- Decimal digits of a natural number grouped in threes from the right,
on the reversed digit list (Python's grouping separator). -/
def group3Rev : List Char → List Char
  | a :: b :: c :: d :: rest => a :: b :: c :: ',' :: group3Rev (d :: rest)
  | l => l

/-- Python fixed-point rendering with `k` decimal places: round and print
with exactly `k` fractional digits.  (Ties are rounded up here; the claims
do not depend on the tie-breaking mode of binary floats.) -/
def fmtFixed (k : ℕ) (q : ℚ) : String :=
  let scaled : ℤ := ⌊q * (10 : ℚ) ^ k + 1/2⌋
  let sign := if scaled < 0 then "-" else ""
  let a := scaled.natAbs
  let ip := a / 10 ^ k
  let fp := a % 10 ^ k
  let fpStr := toString fp
  sign ++ toString ip ++ "."
    ++ String.mk (List.replicate (k - fpStr.length) '0') ++ fpStr

/-- Python price formatting: two fixed decimal places with thousands
separators in the integer part. -/
def fmtThousands2 (q : ℚ) : String :=
  let scaled : ℤ := ⌊q * 100 + 1/2⌋
  let sign := if scaled < 0 then "-" else ""
  let a := scaled.natAbs
  let ip := a / 100
  let fp := a % 100
  let ipStr := String.mk (group3Rev (toString ip).data.reverse).reverse
  let fpStr := toString fp
  sign ++ ipStr ++ "." ++ String.mk (List.replicate (2 - fpStr.length) '0') ++ fpStr

/-- Python left-alignment in a field of `n` characters. -/
def padRightTo (n : ℕ) (s : String) : String :=
  s ++ String.mk (List.replicate (n - s.length) ' ')

/-- The separator line of 63 equals signs. -/
def sepLine : String := String.mk (List.replicate 63 '=')

/-- The section separator line of 63 dashes. -/
def dashLine : String := String.mk (List.replicate 63 '-')

/-- The lines printed by `display_report`, in order; one list entry per
`print` call.  The timestamp string (current UTC time formatted in the
code) is passed in explicitly. -/
def display_report_lines (timestamp_utc spy_name : String)
    (sentiment_score btc_price : ℚ) : List String :=
  let sentiment_label := (get_sentiment_label sentiment_score).text
  [ sepLine,
    "    PROJECT SENTINEL - CRYPTO & TRADFI SENTIMENT BRIDGE",
    "            Fecha y Hora: " ++ timestamp_utc,
    sepLine,
    "",
    "[1] ANÁLISIS DEL MERCADO TRADICIONAL (S&P 500)",
    dashLine,
    padRightTo 30 "-> Activo de Referencia" ++ ": " ++ spy_name ++ " (vía IBKR)",
    padRightTo 30 "-> Sentimiento de Noticias" ++ ": " ++ sentiment_label
      ++ " (vía NewsAPI & AI)",
    padRightTo 30 "-> Puntuación de Sentimiento" ++ ": " ++ fmtFixed 3 sentiment_score,
    "",
    "[2] DATOS DEL MERCADO CRYPTO",
    dashLine,
    padRightTo 30 "-> Activo" ++ ": Bitcoin (XBT/USD) (vía Kraken)",
    padRightTo 30 "-> Precio Actual" ++ ": $" ++ fmtThousands2 btc_price,
    "",
    "[3] CONCLUSIÓN",
    dashLine,
    "El sentimiento del mercado tradicional es " ++ sentiment_label ++ ".",
    "Monitorear si este sentimiento se traslada a los activos de riesgo como Bitcoin.",
    "",
    sepLine,
    "                     FIN DEL INFORME",
    sepLine ]

/-- The full report text written to the output stream. -/
def display_report (timestamp_utc spy_name : String)
    (sentiment_score btc_price : ℚ) : String :=
  String.intercalate "\n" (display_report_lines timestamp_utc spy_name
    sentiment_score btc_price) ++ "\n"

/-! ### Configuration (main.py, `load_config` and the config reads) -/

/-- An INI file as read by `configparser`: a list of sections, each a list
of option/value pairs. -/
def Config : Type := List (String × List (String × String))

/-- Association-list lookup (dictionary access). -/
def lookupKV {α : Type} (l : List (String × α)) (k : String) : Option α :=
  match l with
  | [] => none
  | (k₂, v) :: rest => if k₂ = k then some v else lookupKV rest k

/-- A string option read: raises `NoSectionError` when the section is
absent and `NoOptionError` when the option is absent. -/
def cfg_get (c : Config) (sec opt : String) : Except PyErr String :=
  match lookupKV c sec with
  | none => .error (.noSection sec)
  | some opts =>
      match lookupKV opts opt with
      | none => .error (.noOption sec opt)
      | some v => .ok v

/-- Decimal digit parsing, structurally recursive so that concrete
configurations evaluate inside the kernel. -/
def parseDigits (acc : ℕ) : List Char → Option ℕ
  | [] => some acc
  | c :: cs =>
      if c.isDigit then parseDigits (acc * 10 + (c.toNat - '0'.toNat)) cs
      else none

/-- Python integer conversion of a string (optional leading minus sign
followed by decimal digits). -/
def str_toInt (s : String) : Option ℤ :=
  match s.data with
  | [] => none
  | '-' :: rest =>
      if rest = [] then none
      else (parseDigits 0 rest).map (fun n => -(n : ℤ))
  | l => (parseDigits 0 l).map (fun n => (n : ℤ))

/-- An integer option read: `cfg_get` followed by an integer parse; an
unparsable value raises `ValueError`. -/
def cfg_getint (c : Config) (sec opt : String) : Except PyErr ℤ :=
  match cfg_get c sec opt with
  | .error e => .error e
  | .ok v =>
      match str_toInt v with
      | some i => .ok i
      | none => .error .valueError

/-- The exact message of the `FileNotFoundError` raised by `load_config`. -/
def fileNotFoundMsg : String :=
  "Error: El archivo de configuración 'config.ini' no fue encontrado."

/-- Whether the configuration file was found and read. -/
inductive LoadOutcome where
  | notFound
  | found (c : Config)

/-- `load_config` from main.py: raises `FileNotFoundError` when the read
found no file. -/
def load_config : LoadOutcome → Except PyErr Config
  | .notFound => .error (.fileNotFound fileNotFoundMsg)
  | .found c => .ok c

/-! ### Orchestrator (main.py, `main`) -/

/-- One external fetch performed by the orchestrator, with the query string
for the news fetch. -/
inductive FetchEvent where
  | spy
  | news (query : String)
  | btc
  deriving DecidableEq, Repr

/-- The final observable outcome of a run: the rendered report, or the
fatal error message printed by one of the `except` clauses of `main`. -/
inductive MainOutcome where
  | report (txt : String)
  | fatal (msg : String)
  deriving DecidableEq, Repr

/-- Python class name of an exception, as printed by the generic handler. -/
def PyErr.typeName : PyErr → String
  | .fileNotFound _ => "FileNotFoundError"
  | .noSection _ => "NoSectionError"
  | .noOption _ _ => "NoOptionError"
  | .valueError => "ValueError"
  | .keyError => "KeyError"
  | .indexError => "IndexError"
  | .connectionRefused => "ConnectionRefusedError"
  | .requestException => "RequestException"
  | .httpError => "HTTPError"
  | .generic _ => "Exception"

/-- The message text carried by an exception. -/
def PyErr.msgText : PyErr → String
  | .fileNotFound m => m
  | .generic m => m
  | _ => ""

/-- The message printed by the `except` clause of `main` that handles the
given exception, with each `print` call contributing one line. -/
def handlerMsg (e : PyErr) : String :=
  match e with
  | .fileNotFound m =>
      "\nERROR CRÍTICO: " ++ m
        ++ "\nPor favor, asegúrate de que 'config.ini' existe en el mismo directorio."
        ++ "\nPuedes crearlo a partir de 'config.ini.example'."
  | .noSection s =>
      "\nERROR DE CONFIGURACIÓN: Falta la sección " ++ s ++ " en 'config.ini'."
  | .noOption s o =>
      "\nERROR DE CONFIGURACIÓN: Falta la opción '" ++ o ++ "' en la sección '"
        ++ s ++ "' de 'config.ini'."
  | e =>
      "\nHA OCURRIDO UN ERROR INESPERADO:"
        ++ "\nTipo de Error: " ++ e.typeName
        ++ "\nMensaje: " ++ e.msgText
        ++ "\nLa ejecución del programa se ha detenido."

/-- All external behaviours one run of the program can encounter: the
config file, the clock, the three data sources, and the polarity model. -/
structure World where
  loadO : LoadOutcome
  timestamp : String
  spyO : SpyOutcome
  newsO : NewsOutcome
  btcO : KrakenOutcome
  polarity : String → PolarityScores

/-- The `try` body of `main`: load the configuration, read the four
options, fetch the SPY name, fetch news using that name as the query,
score the headlines, fetch the BTC price, and render the report.  The
second component records the fetches performed, in order. -/
def main_try (w : World) : Except PyErr String × List FetchEvent :=
  match load_config w.loadO with
  | .error e => (.error e, [])
  | .ok config =>
  match cfg_get config "IBKR" "HOST" with
  | .error e => (.error e, [])
  | .ok _ib_host =>
  match cfg_getint config "IBKR" "PORT" with
  | .error e => (.error e, [])
  | .ok _ib_port =>
  match cfg_getint config "IBKR" "CLIENT_ID" with
  | .error e => (.error e, [])
  | .ok _ib_client_id =>
  match cfg_get config "NEWS_API" "API_KEY" with
  | .error e => (.error e, [])
  | .ok _news_api_key =>
  let spy_name := (get_spy_name w.spyO).result
  match get_market_news w.newsO with
  | .error e => (.error e, [.spy, .news spy_name])
  | .ok headlines =>
  let sentiment_analysis := analyze_headlines_sentiment w.polarity headlines
  let avg_sentiment_score := sentiment_analysis.average_sentiment_compound
  match get_btc_price w.btcO with
  | .error e => (.error e, [.spy, .news spy_name, .btc])
  | .ok btc_price =>
      (.ok (display_report w.timestamp spy_name avg_sentiment_score btc_price),
       [.spy, .news spy_name, .btc])

/-- `main` from main.py: the `try` body together with its `except` clauses,
each of which prints a handler-specific fatal message. -/
def main (w : World) : MainOutcome × List FetchEvent :=
  match main_try w with
  | (.ok txt, tr) => (.report txt, tr)
  | (.error e, tr) => (.fatal (handlerMsg e), tr)

/-- The first configuration error raised by the four option reads of
`main`, in program order, if any. -/
def firstConfigErr (c : Config) : Option PyErr :=
  match cfg_get c "IBKR" "HOST" with
  | .error e => some e
  | .ok _ =>
  match cfg_getint c "IBKR" "PORT" with
  | .error e => some e
  | .ok _ =>
  match cfg_getint c "IBKR" "CLIENT_ID" with
  | .error e => some e
  | .ok _ =>
  match cfg_get c "NEWS_API" "API_KEY" with
  | .error e => some e
  | .ok _ => none

/-- A well-formed configuration used to exercise the pipeline on concrete
inputs. -/
def sampleConfig : Config :=
  [("IBKR", [("HOST", "127.0.0.1"), ("PORT", "7497"), ("CLIENT_ID", "1")]),
   ("NEWS_API", [("API_KEY", "k")])]

/-! ### Helper lemmas -/

lemma sentimentLoop_fst (polarity : String → PolarityScores) (hs : List String) :
    (sentimentLoop polarity hs).1 = hs.map (fun h => ⟨h, polarity h⟩) := by
  induction hs with
  | nil => rfl
  | cons h rest ih => simp [sentimentLoop, ih]

lemma sentimentLoop_snd (polarity : String → PolarityScores) (hs : List String) :
    (sentimentLoop polarity hs).2 = (hs.map (fun h => (polarity h).compound)).sum := by
  induction hs with
  | nil => rfl
  | cons h rest ih => simp [sentimentLoop, ih]

lemma btc_price_eq_spec (o : KrakenOutcome) :
    get_btc_price o = .ok (btcPriceSpec o) := by
  unfold get_btc_price get_btc_price_body btcPriceSpec
  match o with
  | .raises msg => rfl
  | .returns resp =>
      by_cases he : resp.error = []
      · simp only [he, ne_eq, not_true_eq_false, if_false]
        match resp.c with
        | none => rfl
        | some [] => rfl
        | some (none :: _) => rfl
        | some (some price :: _) => rfl
      · simp [he]

lemma market_news_eq_spec (o : NewsOutcome) :
    get_market_news o = .ok (newsHeadlinesSpec o) := by
  unfold get_market_news get_market_news_body newsHeadlinesSpec
  match o with
  | .requestRaises => rfl
  | .response status body =>
      by_cases hs : 400 ≤ status
      · simp [hs]
      · simp only [hs, if_false]
        match body with
        | .invalidJson => rfl
        | .json articles =>
            cases hE : extractTitles (articles.getD []) <;> simp [hE]

lemma spy_result_on_failure (o : SpyOutcome) (h : spyFetchFails o) :
    (get_spy_name o).result = "Desconocido" := by
  match o, h with
  | .connectRefused, _ => rfl
  | .connectRaises m, _ => rfl
  | .detailsRaise m, _ => rfl
  | .details [], _ => rfl

lemma main_found_config_err (c : Config) (ts : String) (spyO : SpyOutcome)
    (newsO : NewsOutcome) (btcO : KrakenOutcome)
    (pol : String → PolarityScores) (e : PyErr)
    (h : firstConfigErr c = some e) :
    main ⟨.found c, ts, spyO, newsO, btcO, pol⟩ = (.fatal (handlerMsg e), []) := by
  unfold firstConfigErr at h
  simp only [main, main_try, load_config]
  cases h1 : cfg_get c "IBKR" "HOST" with
  | error e1 =>
      rw [h1] at h
      simp only [Option.some.injEq] at h
      subst h
      simp [h1]
  | ok v1 =>
      rw [h1] at h
      cases h2 : cfg_getint c "IBKR" "PORT" with
      | error e2 =>
          rw [h2] at h
          simp only [Option.some.injEq] at h
          subst h
          simp [h1, h2]
      | ok v2 =>
          rw [h2] at h
          cases h3 : cfg_getint c "IBKR" "CLIENT_ID" with
          | error e3 =>
              rw [h3] at h
              simp only [Option.some.injEq] at h
              subst h
              simp [h1, h2, h3]
          | ok v3 =>
              rw [h3] at h
              cases h4 : cfg_get c "NEWS_API" "API_KEY" with
              | error e4 =>
                  rw [h4] at h
                  simp only [Option.some.injEq] at h
                  subst h
                  simp [h1, h2, h3, h4]
              | ok v4 =>
                  rw [h4] at h
                  cases h

lemma main_found_config_ok (c : Config) (ts : String) (spyO : SpyOutcome)
    (newsO : NewsOutcome) (btcO : KrakenOutcome)
    (pol : String → PolarityScores)
    (h : firstConfigErr c = none) :
    main ⟨.found c, ts, spyO, newsO, btcO, pol⟩ =
      (.report (display_report ts (get_spy_name spyO).result
          (analyze_headlines_sentiment pol
            (newsHeadlinesSpec newsO)).average_sentiment_compound
          (btcPriceSpec btcO)),
        [.spy, .news (get_spy_name spyO).result, .btc]) := by
  unfold firstConfigErr at h
  simp only [main, main_try, load_config]
  cases h1 : cfg_get c "IBKR" "HOST" with
  | error e1 => rw [h1] at h; cases h
  | ok v1 =>
      rw [h1] at h
      cases h2 : cfg_getint c "IBKR" "PORT" with
      | error e2 => rw [h2] at h; cases h
      | ok v2 =>
          rw [h2] at h
          cases h3 : cfg_getint c "IBKR" "CLIENT_ID" with
          | error e3 => rw [h3] at h; cases h
          | ok v3 =>
              rw [h3] at h
              cases h4 : cfg_get c "NEWS_API" "API_KEY" with
              | error e4 => rw [h4] at h; cases h
              | ok v4 =>
                  simp [h1, h2, h3, h4, market_news_eq_spec, btc_price_eq_spec]

/-! ### Claims -/

/-- Claim C1: for every non-empty list of headlines, the summary's average
compound score is the unweighted arithmetic mean of the per-headline
compound scores, and `details` lists exactly the input headlines in input
order, each paired with its polarity scores. -/
theorem analyze_nonempty_mean_and_order
    (polarity : String → PolarityScores) (headlines : List String)
    (h : headlines ≠ []) :
    (analyze_headlines_sentiment polarity headlines).average_sentiment_compound
        = (headlines.map (fun x => (polarity x).compound)).sum / headlines.length
    ∧ (analyze_headlines_sentiment polarity headlines).details.length
        = headlines.length
    ∧ (analyze_headlines_sentiment polarity headlines).details
        = headlines.map (fun x => ⟨x, polarity x⟩) := by
  unfold analyze_headlines_sentiment
  rw [if_neg h]
  refine ⟨?_, ?_, ?_⟩
  · simp [sentimentLoop_snd]
  · simp [sentimentLoop_fst]
  · simp [sentimentLoop_fst]

/-- Witness for C1 at a concrete two-headline input. -/
theorem analyze_nonempty_mean_and_order_witness :
    (analyze_headlines_sentiment (fun _ => ⟨0, 0, 0, 1/2⟩) ["a", "b"]).average_sentiment_compound
        = ((["a", "b"].map (fun x => ((fun _ => (⟨0, 0, 0, 1/2⟩ : PolarityScores)) x).compound)).sum
            / (["a", "b"] : List String).length)
    ∧ (analyze_headlines_sentiment (fun _ => ⟨0, 0, 0, 1/2⟩) ["a", "b"]).details.length
        = (["a", "b"] : List String).length
    ∧ (analyze_headlines_sentiment (fun _ => ⟨0, 0, 0, 1/2⟩) ["a", "b"]).details
        = ["a", "b"].map (fun x => ⟨x, (fun _ => (⟨0, 0, 0, 1/2⟩ : PolarityScores)) x⟩) :=
  analyze_nonempty_mean_and_order (fun _ => ⟨0, 0, 0, 1/2⟩) ["a", "b"] (by decide)

/-- Claim C3: the empty headline list yields average 0.0 and empty details,
with no error (the code branches before the division, so no division by
zero occurs; the embedded function is total). -/
theorem analyze_empty (polarity : String → PolarityScores) :
    analyze_headlines_sentiment polarity []
      = { average_sentiment_compound := 0, details := [] } := by
  rfl

/-- Claim C2: the labeler is total (by its type) and realises the spec's
five-case table, with boundaries exactly as stated: 0.3 maps to
NEUTRAL-POSITIVE, -0.3 to NEUTRAL-NEGATIVE, and 0.05 and -0.05 to NEUTRAL. -/
theorem get_sentiment_label_table (score : ℚ) :
    (3/10 < score → get_sentiment_label score = .POSITIVE)
    ∧ (1/20 < score ∧ score ≤ 3/10 → get_sentiment_label score = .NEUTRAL_POSITIVE)
    ∧ (score < -(3/10) → get_sentiment_label score = .NEGATIVE)
    ∧ (-(3/10) ≤ score ∧ score < -(1/20) → get_sentiment_label score = .NEUTRAL_NEGATIVE)
    ∧ (-(1/20) ≤ score ∧ score ≤ 1/20 → get_sentiment_label score = .NEUTRAL)
    ∧ get_sentiment_label (3/10) = .NEUTRAL_POSITIVE
    ∧ get_sentiment_label (-(3/10)) = .NEUTRAL_NEGATIVE
    ∧ get_sentiment_label (1/20) = .NEUTRAL
    ∧ get_sentiment_label (-(1/20)) = .NEUTRAL := by
  unfold get_sentiment_label
  refine ⟨?_, ?_, ?_, ?_, ?_, by norm_num, by norm_num, by norm_num, by norm_num⟩
  · intro h
    rw [if_pos h]
  · rintro ⟨h1, h2⟩
    rw [if_neg (by linarith), if_pos h1]
  · intro h
    rw [if_neg (by linarith), if_neg (by linarith), if_pos h]
  · rintro ⟨h1, h2⟩
    rw [if_neg (by linarith), if_neg (by linarith), if_neg (by linarith), if_pos h2]
  · rintro ⟨h1, h2⟩
    rw [if_neg (by linarith), if_neg (by linarith), if_neg (by linarith),
      if_neg (by linarith)]

/-- Witness for C2, applying the table at score 2/5 (a POSITIVE case). -/
theorem get_sentiment_label_table_witness :
    get_sentiment_label (2/5) = .POSITIVE :=
  (get_sentiment_label_table (2/5)).1 (by norm_num)

/-- Claim C10: the labeler is monotone with respect to the label order
NEGATIVE < NEUTRAL-NEGATIVE < NEUTRAL < NEUTRAL-POSITIVE < POSITIVE. -/
theorem get_sentiment_label_monotone (s₁ s₂ : ℚ) (h : s₁ ≤ s₂) :
    (get_sentiment_label s₁).rank ≤ (get_sentiment_label s₂).rank := by
  unfold get_sentiment_label
  split_ifs <;> simp [SentimentLabel.rank] <;> linarith

/-- Witness for C10 at the concrete pair (-1, 1). -/
theorem get_sentiment_label_monotone_witness :
    (get_sentiment_label (-1)).rank ≤ (get_sentiment_label 1).rank :=
  get_sentiment_label_monotone (-1) 1 (by norm_num)

/-- Claim C5: `get_btc_price` always returns normally (never an `.error`,
i.e. never propagates an exception), with the fetched price on success and
0.0 on any failure, as described by `btcPriceSpec`. -/
theorem get_btc_price_total_default (o : KrakenOutcome) :
    get_btc_price o = .ok (btcPriceSpec o) :=
  btc_price_eq_spec o

/-- Claim C6: `get_market_news` always returns normally (never propagates
an exception), with the titles on success and the empty list on any
HTTP-level, parsing, or unexpected error, as described by
`newsHeadlinesSpec`. -/
theorem get_market_news_total_default (o : NewsOutcome) :
    get_market_news o = .ok (newsHeadlinesSpec o) :=
  market_news_eq_spec o

/-- Claim C7: on every exit path of `get_spy_name` the connection is
released: the `IB` object is disconnected on return, and the trace holds
exactly as many disconnects as connects. -/
theorem get_spy_name_releases_connection (o : SpyOutcome) :
    (get_spy_name o).finalConnected = false
    ∧ ((get_spy_name o).trace.count .connected
        = (get_spy_name o).trace.count .disconnected) := by
  match o with
  | .connectRefused => exact ⟨rfl, rfl⟩
  | .connectRaises msg => exact ⟨rfl, rfl⟩
  | .detailsRaise msg => exact ⟨rfl, rfl⟩
  | .details [] => exact ⟨rfl, rfl⟩
  | .details (d :: ds) => exact ⟨rfl, rfl⟩

/-- Counterexample to C4 as stated: on a refused connection
`get_spy_name` returns the sentinel `"Desconocido"`, which is not the
string `"Unknown"` the claim names. -/
theorem spy_sentinel_not_unknown :
    (get_spy_name .connectRefused).result = "Desconocido"
    ∧ (get_spy_name .connectRefused).result ≠ "Unknown" := by
  exact ⟨rfl, by decide⟩

/-- Claim C4 (amended: the sentinel string is `"Desconocido"`, Spanish for
"Unknown", not the English `"Unknown"`): on every failure of the
reference-asset fetch, `get_spy_name` returns `"Desconocido"`, and the
orchestrator still performs the news query with that string as the query
and completes the run with a rendered report. -/
theorem spy_failure_sentinel_news_proceeds (c : Config) (ts : String)
    (spyO : SpyOutcome) (newsO : NewsOutcome) (btcO : KrakenOutcome)
    (pol : String → PolarityScores)
    (hc : firstConfigErr c = none) (hf : spyFetchFails spyO) :
    (get_spy_name spyO).result = "Desconocido"
    ∧ ∃ txt, main ⟨.found c, ts, spyO, newsO, btcO, pol⟩
        = (.report txt, [.spy, .news "Desconocido", .btc]) := by
  have hres := spy_result_on_failure spyO hf
  refine ⟨hres, ?_⟩
  rw [main_found_config_ok c ts spyO newsO btcO pol hc, hres]
  exact ⟨_, rfl⟩

/-- Witness for the amended C4 at a concrete failing world. -/
theorem spy_failure_sentinel_news_proceeds_witness :
    (get_spy_name .connectRefused).result = "Desconocido"
    ∧ ∃ txt, main ⟨.found sampleConfig, "t", .connectRefused, .requestRaises,
          .raises "down", fun _ => ⟨0, 0, 0, 0⟩⟩
        = (.report txt, [.spy, .news "Desconocido", .btc]) :=
  spy_failure_sentinel_news_proceeds sampleConfig "t" .connectRefused
    .requestRaises (.raises "down") (fun _ => ⟨0, 0, 0, 0⟩) (by rfl) trivial

/-- Claim C8: each of the three configuration error conditions (file
missing, section missing, option missing) makes the run end with the
corresponding fatal handler message before any fetch is performed (the
fetch trace is empty), and for the sections and options the program
requires, the three kinds of messages are pairwise distinct. -/
theorem main_config_errors_fatal_distinct (w : World) :
    (w.loadO = .notFound →
        main w = (.fatal (handlerMsg (.fileNotFound fileNotFoundMsg)), []))
    ∧ (∀ c s, w.loadO = .found c → firstConfigErr c = some (.noSection s) →
        main w = (.fatal (handlerMsg (.noSection s)), []))
    ∧ (∀ c s o, w.loadO = .found c → firstConfigErr c = some (.noOption s o) →
        main w = (.fatal (handlerMsg (.noOption s o)), []))
    ∧ (∀ s, s = "IBKR" ∨ s = "NEWS_API" →
        handlerMsg (.fileNotFound fileNotFoundMsg) ≠ handlerMsg (.noSection s))
    ∧ (∀ s o, (s, o) = ("IBKR", "HOST") ∨ (s, o) = ("IBKR", "PORT")
          ∨ (s, o) = ("IBKR", "CLIENT_ID") ∨ (s, o) = ("NEWS_API", "API_KEY") →
        handlerMsg (.fileNotFound fileNotFoundMsg) ≠ handlerMsg (.noOption s o)
        ∧ handlerMsg (.noSection "IBKR") ≠ handlerMsg (.noOption s o)
        ∧ handlerMsg (.noSection "NEWS_API") ≠ handlerMsg (.noOption s o)) := by
  obtain ⟨lo, ts, spyO, newsO, btcO, pol⟩ := w
  refine ⟨?_, ?_, ?_, ?_, ?_⟩
  · intro h
    cases h
    rfl
  · intro c s h he
    cases h
    exact main_found_config_err c ts spyO newsO btcO pol _ he
  · intro c s o h he
    cases h
    exact main_found_config_err c ts spyO newsO btcO pol _ he
  · rintro s (rfl | rfl) <;> decide
  · rintro s o (h | h | h | h) <;>
      (injection h with h1 h2; subst h1; subst h2; exact ⟨by decide, by decide, by decide⟩)

/-- Witness for C8: the missing-file, missing-section and missing-option
conditions at concrete worlds, with the three distinct messages. -/
theorem main_config_errors_fatal_distinct_witness :
    main ⟨.notFound, "t", .connectRefused, .requestRaises, .raises "x",
        fun _ => ⟨0, 0, 0, 0⟩⟩
      = (.fatal (handlerMsg (.fileNotFound fileNotFoundMsg)), [])
    ∧ main ⟨.found [], "t", .connectRefused, .requestRaises, .raises "x",
        fun _ => ⟨0, 0, 0, 0⟩⟩
      = (.fatal (handlerMsg (.noSection "IBKR")), [])
    ∧ main ⟨.found [("IBKR", []), ("NEWS_API", [])], "t", .connectRefused,
        .requestRaises, .raises "x", fun _ => ⟨0, 0, 0, 0⟩⟩
      = (.fatal (handlerMsg (.noOption "IBKR" "HOST")), [])
    ∧ handlerMsg (.fileNotFound fileNotFoundMsg) ≠ handlerMsg (.noSection "IBKR")
    ∧ handlerMsg (.fileNotFound fileNotFoundMsg) ≠ handlerMsg (.noOption "IBKR" "HOST")
    ∧ handlerMsg (.noSection "IBKR") ≠ handlerMsg (.noOption "IBKR" "HOST") := by
  refine ⟨?_, ?_, ?_, ?_, ?_, ?_⟩
  · exact (main_config_errors_fatal_distinct ⟨.notFound, "t", .connectRefused,
      .requestRaises, .raises "x", fun _ => ⟨0, 0, 0, 0⟩⟩).1 rfl
  · exact (main_config_errors_fatal_distinct ⟨.found [], "t", .connectRefused,
      .requestRaises, .raises "x", fun _ => ⟨0, 0, 0, 0⟩⟩).2.1 [] "IBKR" rfl rfl
  · exact (main_config_errors_fatal_distinct ⟨.found [("IBKR", []), ("NEWS_API", [])],
      "t", .connectRefused, .requestRaises, .raises "x",
      fun _ => ⟨0, 0, 0, 0⟩⟩).2.2.1 [("IBKR", []), ("NEWS_API", [])] "IBKR" "HOST" rfl rfl
  · exact (main_config_errors_fatal_distinct ⟨.notFound, "t", .connectRefused,
      .requestRaises, .raises "x", fun _ => ⟨0, 0, 0, 0⟩⟩).2.2.2.1 "IBKR" (Or.inl rfl)
  · exact ((main_config_errors_fatal_distinct ⟨.notFound, "t", .connectRefused,
      .requestRaises, .raises "x", fun _ => ⟨0, 0, 0, 0⟩⟩).2.2.2.2 "IBKR" "HOST"
      (Or.inl rfl)).1
  · exact ((main_config_errors_fatal_distinct ⟨.notFound, "t", .connectRefused,
      .requestRaises, .raises "x", fun _ => ⟨0, 0, 0, 0⟩⟩).2.2.2.2 "IBKR" "HOST"
      (Or.inl rfl)).2.1

/-- Claim C9: two renderings with identical inputs (asset name, score,
price) but different timestamps agree on every line except line index 2,
the timestamp line, which embeds exactly the given timestamp. -/
theorem display_report_same_except_timestamp (t₁ t₂ spy_name : String)
    (sentiment_score btc_price : ℚ) :
    (display_report_lines t₁ spy_name sentiment_score btc_price).eraseIdx 2
        = (display_report_lines t₂ spy_name sentiment_score btc_price).eraseIdx 2
    ∧ (display_report_lines t₁ spy_name sentiment_score btc_price)[2]?
        = some ("            Fecha y Hora: " ++ t₁)
    ∧ (display_report_lines t₂ spy_name sentiment_score btc_price)[2]?
        = some ("            Fecha y Hora: " ++ t₂)
    ∧ display_report t₁ spy_name sentiment_score btc_price
        = String.intercalate "\n"
            (display_report_lines t₁ spy_name sentiment_score btc_price) ++ "\n" := by
  exact ⟨rfl, rfl, rfl, rfl⟩

end Sentinel
